import Mathlib

/-!
Shallow embedding of the stacks-signer run loop
(src/stacks-signer/src/runloop.rs) and proofs of the frozen claims.

Opaque external values (public keys, signatures, serialized blobs,
operation results) are modelled as natural numbers; cryptographic
signature verification (`Signable::verify` from the wsts crate) is an
opaque boolean oracle passed as a parameter.  Fallible external calls
return `Except Unit`; a Rust panic is modelled by an `Option.none`
result of the embedded function.
-/

namespace StacksSigner

/-- Opaque ecdsa public key (`p256k1::ecdsa::PublicKey`). -/
abbrev PubKey := Nat

/-- Opaque message signature bytes (`Packet.sig`). -/
abbrev Sig := Nat

/-- Opaque serialized blob (one `modified_slots` chunk's data). -/
abbrev Blob := Nat

/-- Opaque `wsts::state_machine::OperationResult`. -/
abbrev OpResult := Nat

/-- The payload of `wsts::net::Message`: a tagged union over the nine
protocol message kinds.  Coordinator-issued kinds carry only an opaque
body; participant-issued kinds additionally carry the claimed
`signer_id` embedded in the payload. -/
inductive Message where
  | dkgBegin (body : Nat)
  | dkgPrivateBegin (body : Nat)
  | dkgEnd (signer_id : Nat) (body : Nat)
  | dkgPublicShares (signer_id : Nat) (body : Nat)
  | dkgPrivateShares (signer_id : Nat) (body : Nat)
  | nonceRequest (body : Nat)
  | nonceResponse (signer_id : Nat) (body : Nat)
  | signatureShareRequest (body : Nat)
  | signatureShareResponse (signer_id : Nat) (body : Nat)
deriving DecidableEq

/-- `wsts::net::Packet`: a protocol message together with its signature. -/
structure Packet where
  msg : Message
  sig : Sig
deriving DecidableEq

/-- `wsts::state_machine::PublicKeys`: maps from signer ids and key ids
to verification public keys (association lists standing in for the
`HashMap`s). -/
structure PublicKeys where
  signers : List (Nat × PubKey)
  key_ids : List (Nat × PubKey)
deriving DecidableEq

/-- `RunLoopCommand` from runloop.rs. -/
inductive RunLoopCommand where
  | dkg
  | sign (message : List Nat) (is_taproot : Bool) (merkle_root : Option Nat)
deriving DecidableEq

/-- `State` from runloop.rs: the run-loop round state. -/
inductive State where
  | idle
  | dkg
  | sign
deriving DecidableEq

/-- The observable fields of `RunLoop<C>`.  `aggregate_public_key` is the
coordinator engine's `get_aggregate_public_key()` view;
`start_attempts` counts the calls made so far to the coordinator
engine's start operations (it indexes the outcome oracle of
`CoordEnv`). -/
structure RunLoop where
  event_timeout : Nat
  aggregate_public_key : Option PubKey
  signer_id : Nat
  public_keys : PublicKeys
  commands : List RunLoopCommand
  state : State
  start_attempts : Nat
deriving DecidableEq

/-- Observable calls made to the external collaborators during one
embedded operation. -/
inductive Effect where
  | startDkgCall
  | startSignCall
  | reset
  | send (p : Packet)
  | getChainKey
  | getVoteCall
  | castVote (k : PubKey)
  | emitResults (rs : List OpResult)
deriving DecidableEq

/-- Oracle for the opaque signature check `msg.verify(&sig, &key)`:
arguments are the message body, the signature, the key. -/
abbrev SigOk := Nat → Sig → PubKey → Bool

/-- Environment for `process_event`: deserialization of chunks
(`bincode::deserialize`, `none` = malformed), the signature oracle, the
participant engine `SigningRound::process_inbound_messages` and the
coordinator engine `Coordinatable::process_inbound_messages`
(`Option.none` models the engine call returning `Err`). -/
structure EventEnv where
  decode : Blob → Option Packet
  sigOk : SigOk
  signerOut : List Packet → Option (List Packet)
  coordOut : List Packet → Option (List Packet × List OpResult)

/-- Modelled from the spec: the `StacksClient` (src/stacks-signer/src/stacks_client.rs
is not part of the provided sources).  Per the spec's external-interface
section it exposes "get current group public key" (present or absent, or
a query error), "get this node's recorded vote for a key", and "cast a
vote for a key"; all three are fallible. -/
structure ClientEnv where
  getChainKey : Except Unit (Option PubKey)
  getVote : Except Unit (Option PubKey)
  castVote : PubKey → Except Unit Unit

/-- Outcome oracle for the coordinator engine's start operations: the
result of the n-th start call (counted by `RunLoop.start_attempts`).
`start_distributed_key_generation` and `start_signing_message` are
opaque stateful calls, so successive calls may differ. -/
structure CoordEnv where
  startDkgRes : Nat → Except Unit Packet
  startSignRes : Nat → List Nat → Bool → Option Nat → Except Unit Packet

/-- `calculate_coordinator` from runloop.rs: returns participant id 0 and
its registered key; the source `unwrap`s the registry lookup, so a
registry without id 0 panics (`none`). -/
def calculate_coordinator (public_keys : PublicKeys) : Option (Nat × PubKey) :=
  (public_keys.signers.lookup 0).map (fun key => (0, key))

/-- `verify_msg` from runloop.rs: per-kind signature authentication. -/
def verify_msg (sigOk : SigOk) (m : Packet) (public_keys : PublicKeys)
    (coordinator_public_key : PubKey) : Bool :=
  match m.msg with
  | .dkgBegin body | .dkgPrivateBegin body =>
    sigOk body m.sig coordinator_public_key
  | .dkgEnd signer_id body =>
    match public_keys.signers.lookup signer_id with
    | some public_key => sigOk body m.sig public_key
    | none => false
  | .dkgPublicShares signer_id body =>
    match public_keys.signers.lookup signer_id with
    | some public_key => sigOk body m.sig public_key
    | none => false
  | .dkgPrivateShares signer_id body =>
    match public_keys.signers.lookup signer_id with
    | some public_key => sigOk body m.sig public_key
    | none => false
  | .nonceRequest body =>
    sigOk body m.sig coordinator_public_key
  | .nonceResponse signer_id body =>
    match public_keys.signers.lookup signer_id with
    | some public_key => sigOk body m.sig public_key
    | none => false
  | .signatureShareRequest body =>
    sigOk body m.sig coordinator_public_key
  | .signatureShareResponse signer_id body =>
    match public_keys.signers.lookup signer_id with
    | some public_key => sigOk body m.sig public_key
    | none => false

/-- The `filter_map` closure of `RunLoop::process_event`: decode each
chunk and keep it only when `verify_msg` accepts it. -/
def authenticated_packets (env : EventEnv) (public_keys : PublicKeys)
    (coordinator_public_key : PubKey) (chunks : List Blob) : List Packet :=
  chunks.filterMap (fun chunk =>
    match env.decode chunk with
    | some message =>
      if verify_msg env.sigOk message public_keys coordinator_public_key then
        some message
      else
        none
    | none => none)

/-- `RunLoop::process_event`: authenticate the batch, feed it to the
participant engine (errors absorbed by `unwrap_or_default`), and, when
this node is the elected coordinator, also to the coordinator engine;
`none` models the `calculate_coordinator` panic. -/
def process_event (env : EventEnv) (rl : RunLoop) (event : List Blob) :
    Option (List Packet × List OpResult) :=
  match calculate_coordinator rl.public_keys with
  | none => none
  | some (coordinator_id, coordinator_public_key) =>
    let inbound_messages :=
      authenticated_packets env rl.public_keys coordinator_public_key event
    let outbound_messages := (env.signerOut inbound_messages).getD []
    let mr :=
      if rl.signer_id == coordinator_id then
        (env.coordOut inbound_messages).getD ([], [])
      else
        ([], [])
    some (outbound_messages ++ mr.1, mr.2)

/-- The body of the vote-liaison block of `should_run_dkg`: gated by the
source's `get_aggregate_public_key().ok().is_none()` check, it reads the
recorded vote and, when no vote is recorded, casts one for `key` (cast
failures only logged). -/
def vote_liaison_trace (client : ClientEnv) (key : PubKey) : List Effect :=
  if (Except.toOption client.getChainKey).isNone then
    match client.getVote with
    | .ok (some _) => [Effect.getVoteCall]
    | .ok none => [Effect.getVoteCall, Effect.castVote key]
    | .error _ => [Effect.getVoteCall]
  else
    []

/-- `RunLoop::should_run_dkg`.  Returns the boolean answer together with
the trace of external calls; `none` models the `calculate_coordinator`
panic.  Mirrors the source exactly: the early return on a non-idle
state, the registry lookup for the coordinator, the
`.ok().is_none()` gate on the chain query, and the vote match. -/
def should_run_dkg (client : ClientEnv) (rl : RunLoop) :
    Option (Bool × List Effect) :=
  if rl.state ≠ State.idle then
    some (false, [])
  else
    match calculate_coordinator rl.public_keys with
    | none => none
    | some (coordinator_id, _) =>
      match rl.aggregate_public_key with
      | some key =>
        some (false, Effect.getChainKey :: vote_liaison_trace client key)
      | none =>
        some ((coordinator_id == rl.signer_id) &&
                !(rl.commands.head? == some RunLoopCommand.dkg),
              [])

/-- `RunLoop::execute_command`: ask the coordinator engine to start the
round; on success broadcast the start message and move to the matching
round state, on failure reset the engine and leave the run-loop state
untouched.  Returns (success, new run loop, trace). -/
def execute_command (env : CoordEnv) (rl : RunLoop) (command : RunLoopCommand) :
    Bool × RunLoop × List Effect :=
  match command with
  | .dkg =>
    match env.startDkgRes rl.start_attempts with
    | .ok msg =>
      (true,
       { rl with start_attempts := rl.start_attempts + 1, state := State.dkg },
       [Effect.startDkgCall, Effect.send msg])
    | .error _ =>
      (false,
       { rl with start_attempts := rl.start_attempts + 1 },
       [Effect.startDkgCall, Effect.reset])
  | .sign message is_taproot merkle_root =>
    match env.startSignRes rl.start_attempts message is_taproot merkle_root with
    | .ok msg =>
      (true,
       { rl with start_attempts := rl.start_attempts + 1, state := State.sign },
       [Effect.startSignCall, Effect.send msg])
    | .error _ =>
      (false,
       { rl with start_attempts := rl.start_attempts + 1 },
       [Effect.startSignCall, Effect.reset])

/-- The `while !self.execute_command(&command)` retry loop of
`process_next_command`, made total with explicit fuel: `none` means the
loop is still spinning after `fuel` attempts (the Rust loop runs until
the first success). -/
def retryLoop (env : CoordEnv) (command : RunLoopCommand) :
    Nat → RunLoop → Option (RunLoop × List Effect)
  | 0, _ => none
  | fuel + 1, rl =>
    match execute_command env rl command with
    | (true, rl1, tr) => some (rl1, tr)
    | (false, rl1, tr) =>
      match retryLoop env command fuel rl1 with
      | some (rl2, tr2) => some (rl2, tr ++ tr2)
      | none => none

/-- `RunLoop::process_next_command`: pop and retry the front command only
while idle; do nothing in the `Dkg`/`Sign` states. -/
def process_next_command (env : CoordEnv) (fuel : Nat) (rl : RunLoop) :
    Option (RunLoop × List Effect) :=
  match rl.state with
  | State.idle =>
    match rl.commands with
    | [] => some (rl, [])
    | command :: rest =>
      retryLoop env command fuel { rl with commands := rest }
  | State.dkg => some (rl, [])
  | State.sign => some (rl, [])

/-- The DKG-requirement step of `run_one_pass`: evaluate
`should_run_dkg` and, when it answers true, `push_back` a `Dkg` command. -/
def enqueue_dkg_step (client : ClientEnv) (rl : RunLoop) :
    Option (RunLoop × List Effect) :=
  match should_run_dkg client rl with
  | none => none
  | some (b, tr) =>
    some (if b then
            { rl with commands := rl.commands ++ [RunLoopCommand.dkg] }
          else
            rl,
          tr)

/-- `RunLoop::run_one_pass`: enqueue the arrived command, process the
arrived event (broadcasting outbound messages best-effort and returning
to idle when at least one operation result came back), run the
DKG-requirement check, then process the next command.  `none` models a
panic inside one of the steps. -/
def run_one_pass (eenv : EventEnv) (client : ClientEnv) (denv : CoordEnv)
    (fuel : Nat) (rl : RunLoop) (event : Option (List Blob))
    (cmd : Option RunLoopCommand) : Option (RunLoop × List Effect) :=
  let rl1 :=
    match cmd with
    | some command => { rl with commands := rl.commands ++ [command] }
    | none => rl
  let step1 : Option (RunLoop × List Effect) :=
    match event with
    | none => some (rl1, [])
    | some ev =>
      match process_event eenv rl1 ev with
      | none => none
      | some (outbound_messages, operation_results) =>
        let tr := outbound_messages.map Effect.send
        if operation_results.length > 0 then
          some ({ rl1 with state := State.idle },
                tr ++ [Effect.emitResults operation_results])
        else
          some (rl1, tr)
  match step1 with
  | none => none
  | some (rl2, tr1) =>
    match enqueue_dkg_step client rl2 with
    | none => none
    | some (rl3, tr2) =>
      match process_next_command denv fuel rl3 with
      | none => none
      | some (rl4, tr3) => some (rl4, tr1 ++ tr2 ++ tr3)

/-- The configuration fields that `From<&Config> for RunLoop` reads. -/
structure Config where
  event_timeout : Nat
  signer_id : Nat
  signer_key_ids : List (Nat × List Nat)
  signer_ids_public_keys : PublicKeys
  message_private_key : Nat
deriving DecidableEq

/-- `From<&Config> for RunLoop<FrostCoordinator<v2::Aggregator>>`.
`none` models a panic: the three `try_into().unwrap()` u32 conversions,
the `signer_key_ids.get(&signer_id).unwrap()` lookup, and the explicit
panic when the startup chain query for the aggregate public key fails.
On success the fetched key (present or absent) is installed as the
coordinator engine's aggregate public key, the state starts idle and
the command queue empty. -/
def from_config (client : ClientEnv) (config : Config) : Option RunLoop :=
  if config.signer_ids_public_keys.key_ids.length * 7 / 10 < 2 ^ 32 then
    if config.signer_ids_public_keys.signers.length < 2 ^ 32 then
      if config.signer_ids_public_keys.key_ids.length < 2 ^ 32 then
        match config.signer_key_ids.lookup config.signer_id with
        | none => none
        | some _key_ids =>
          match client.getChainKey with
          | .ok key =>
            some { event_timeout := config.event_timeout
                   aggregate_public_key := key
                   signer_id := config.signer_id
                   public_keys := config.signer_ids_public_keys
                   commands := []
                   state := State.idle
                   start_attempts := 0 }
          | .error _ => none
      else
        none
    else
      none
  else
    none

/-- The outcome of the engine start call that `execute_command` makes for
a given command (its n-th start call overall). -/
def start_result (env : CoordEnv) (n : Nat) : RunLoopCommand → Except Unit Packet
  | .dkg => env.startDkgRes n
  | .sign message is_taproot merkle_root =>
    env.startSignRes n message is_taproot merkle_root

/-- The trace marker of the engine start call made for a command. -/
def call_effect : RunLoopCommand → Effect
  | .dkg => Effect.startDkgCall
  | .sign _ _ _ => Effect.startSignCall

/-- The round state entered when a command starts successfully. -/
def command_state : RunLoopCommand → State
  | .dkg => State.dkg
  | .sign _ _ _ => State.sign

/-! Concrete fixtures used to instantiate the theorems. -/

/-- A two-participant registry: id 0 holds key 10, id 1 holds key 20. -/
def pksW : PublicKeys := ⟨[(0, 10), (1, 20)], [(0, 10), (1, 20)]⟩

/-- A toy signature oracle: the signature is valid when it equals
body + key. -/
def sigOkW : SigOk := fun body sig key => body + key == sig

/-- A toy decoder over blob codes 1..3 (3 decodes to a packet with a bad
signature, anything else is malformed). -/
def decodeW : Blob → Option Packet := fun b =>
  if b == 1 then some ⟨Message.dkgBegin 5, 15⟩
  else if b == 2 then some ⟨Message.nonceResponse 1 7, 27⟩
  else if b == 3 then some ⟨Message.nonceResponse 1 7, 0⟩
  else none

/-- A concrete event environment: the participant engine echoes its
input, the coordinator engine returns one result counting the batch. -/
def eenvW : EventEnv :=
  ⟨decodeW, sigOkW, fun ps => some ps, fun ps => some ([], [ps.length])⟩

/-- A client whose chain query succeeds with no recorded key. -/
def clientW : ClientEnv := ⟨.ok none, .ok none, fun _ => .ok ()⟩

/-- A client whose chain query fails. -/
def clientErrW : ClientEnv := ⟨.error (), .ok none, fun _ => .ok ()⟩

/-- A coordinator engine whose DKG start fails twice and then succeeds,
and whose signing start fails once and then succeeds. -/
def denvW : CoordEnv :=
  ⟨fun n => if n < 2 then .error () else .ok ⟨Message.dkgBegin 0, 0⟩,
   fun n _ _ _ => if n < 1 then .error () else .ok ⟨Message.nonceRequest 3, 13⟩⟩

/-- A concrete idle run loop for participant 0 with no aggregate key. -/
def rlW : RunLoop := ⟨0, none, 0, pksW, [], State.idle, 0⟩

/-- A concrete idle run loop for participant 1 (not the elected
coordinator, which is id 0) holding aggregate key 42. -/
def rlNonCoord : RunLoop := ⟨0, some 42, 1, pksW, [], State.idle, 0⟩

/-- A concrete idle run loop with a Dkg command queued. -/
def rlDkgQueued : RunLoop := ⟨0, none, 0, pksW, [RunLoopCommand.dkg], State.idle, 0⟩

/-- A well-formed configuration for signer 0. -/
def cfgW : Config := ⟨3, 0, [(0, [1, 2])], pksW, 7⟩

/-- A malformed configuration: signer id 9 has no entry in
`signer_key_ids`, so construction hits the `.unwrap()` panic. -/
def cfgBad : Config := ⟨3, 9, [(0, [1, 2])], pksW, 7⟩

/-- The run loop that construction from `cfgW` should produce. -/
def rlCfg : RunLoop := ⟨3, none, 0, pksW, [], State.idle, 0⟩

/-- A run loop busy with a DKG round and a queued command. -/
def rlBusy : RunLoop := ⟨0, none, 0, pksW, [RunLoopCommand.dkg], State.dkg, 0⟩

deriving instance DecidableEq for Except

/-! Theorems. -/

/-- C10: `calculate_coordinator` is partial: it panics exactly when the
registry has no entry for participant id 0; under that registration
precondition it returns (0, registered key of id 0), and its callers
`process_event` (on every event) and `should_run_dkg` (when idle) panic
without the precondition and do not panic with it. -/
theorem calculate_coordinator_partiality :
    (∀ pks : PublicKeys,
      calculate_coordinator pks = none ↔ pks.signers.lookup 0 = none) ∧
    (∀ (pks : PublicKeys) (k : PubKey), pks.signers.lookup 0 = some k →
      calculate_coordinator pks = some (0, k)) ∧
    (∀ (eenv : EventEnv) (rl : RunLoop) (ev : List Blob),
      rl.public_keys.signers.lookup 0 = none →
      process_event eenv rl ev = none) ∧
    (∀ (client : ClientEnv) (rl : RunLoop),
      rl.state = State.idle → rl.public_keys.signers.lookup 0 = none →
      should_run_dkg client rl = none) ∧
    (∀ (eenv : EventEnv) (client : ClientEnv) (rl : RunLoop) (ev : List Blob)
       (k : PubKey),
      rl.public_keys.signers.lookup 0 = some k →
      process_event eenv rl ev ≠ none ∧ should_run_dkg client rl ≠ none) := by
  refine ⟨?_, ?_, ?_, ?_, ?_⟩
  · intro pks
    simp [calculate_coordinator]
  · intro pks k h
    simp [calculate_coordinator, h]
  · intro eenv rl ev h
    simp [process_event, calculate_coordinator, h]
  · intro client rl hs h
    simp [should_run_dkg, hs, calculate_coordinator, h]
  · intro eenv client rl ev k h
    constructor
    · simp [process_event, calculate_coordinator, h]
    · by_cases hs : rl.state = State.idle
      · cases hk : rl.aggregate_public_key <;>
          simp [should_run_dkg, hs, calculate_coordinator, h, hk]
      · simp [should_run_dkg, hs]

/-- C10 witness: for the concrete two-participant registry the
precondition holds and the callers do not panic; for a registry missing
id 0, `process_event` panics. -/
theorem calculate_coordinator_partiality_witness :
    pksW.signers.lookup 0 = some 10 ∧
    process_event eenvW rlW [1, 2, 3] ≠ none ∧
    should_run_dkg clientW rlW ≠ none :=
  ⟨by decide,
   (calculate_coordinator_partiality.2.2.2.2 eenvW clientW rlW [1, 2, 3] 10
     (by decide)).1,
   (calculate_coordinator_partiality.2.2.2.2 eenvW clientW rlW [1, 2, 3] 10
     (by decide)).2⟩

/-- C7: when the coordinator engine's start operation fails,
`execute_command` returns false, emits a reset of the engine, and leaves
the run-loop `state` (and queue) unchanged. -/
theorem execute_command_failure :
    ∀ (env : CoordEnv) (rl : RunLoop) (command : RunLoopCommand),
      start_result env rl.start_attempts command = .error () →
      (execute_command env rl command).1 = false ∧
      (execute_command env rl command).2.1.state = rl.state ∧
      (execute_command env rl command).2.1.commands = rl.commands ∧
      (execute_command env rl command).2.2 =
        [call_effect command, Effect.reset] := by
  intro env rl command h
  cases command with
  | dkg =>
    simp only [start_result] at h
    simp [execute_command, call_effect, h]
  | sign message is_taproot merkle_root =>
    simp only [start_result] at h
    simp [execute_command, call_effect, h]

/-- C7 witness: the concrete engine `denvW` fails its first DKG start;
`execute_command` reports failure, resets, and stays idle. -/
theorem execute_command_failure_witness :
    start_result denvW rlW.start_attempts RunLoopCommand.dkg = .error () ∧
    (execute_command denvW rlW RunLoopCommand.dkg).1 = false ∧
    (execute_command denvW rlW RunLoopCommand.dkg).2.1.state = rlW.state :=
  ⟨rfl,
   (execute_command_failure denvW rlW RunLoopCommand.dkg rfl).1,
   (execute_command_failure denvW rlW RunLoopCommand.dkg rfl).2.1⟩

/-- C1: `verify_msg` authenticates by kind — the four coordinator-issued
kinds verify against the coordinator's key, the five participant-issued
kinds verify against the registry entry for the claimed sender id
(unknown id or failing signature ⇒ false) — and a packet that fails to
decode or to verify is dropped from the batch before reaching either
engine without affecting the processing of the remaining packets. -/
theorem verify_msg_dispatch_and_drop :
    (∀ (sigOk : SigOk) (pks : PublicKeys) (cpk : PubKey) (sig body : Nat),
      verify_msg sigOk ⟨Message.dkgBegin body, sig⟩ pks cpk =
        sigOk body sig cpk ∧
      verify_msg sigOk ⟨Message.dkgPrivateBegin body, sig⟩ pks cpk =
        sigOk body sig cpk ∧
      verify_msg sigOk ⟨Message.nonceRequest body, sig⟩ pks cpk =
        sigOk body sig cpk ∧
      verify_msg sigOk ⟨Message.signatureShareRequest body, sig⟩ pks cpk =
        sigOk body sig cpk) ∧
    (∀ (sigOk : SigOk) (pks : PublicKeys) (cpk : PubKey) (sig body sid : Nat),
      (verify_msg sigOk ⟨Message.dkgEnd sid body, sig⟩ pks cpk = true ↔
        ∃ k, pks.signers.lookup sid = some k ∧ sigOk body sig k = true) ∧
      (verify_msg sigOk ⟨Message.dkgPublicShares sid body, sig⟩ pks cpk = true ↔
        ∃ k, pks.signers.lookup sid = some k ∧ sigOk body sig k = true) ∧
      (verify_msg sigOk ⟨Message.dkgPrivateShares sid body, sig⟩ pks cpk = true ↔
        ∃ k, pks.signers.lookup sid = some k ∧ sigOk body sig k = true) ∧
      (verify_msg sigOk ⟨Message.nonceResponse sid body, sig⟩ pks cpk = true ↔
        ∃ k, pks.signers.lookup sid = some k ∧ sigOk body sig k = true) ∧
      (verify_msg sigOk ⟨Message.signatureShareResponse sid body, sig⟩ pks
          cpk = true ↔
        ∃ k, pks.signers.lookup sid = some k ∧ sigOk body sig k = true)) ∧
    (∀ (env : EventEnv) (rl : RunLoop) (ev1 ev2 : List Blob) (chunk : Blob)
       (cid : Nat) (cpk : PubKey),
      calculate_coordinator rl.public_keys = some (cid, cpk) →
      (∀ p, env.decode chunk = some p →
        verify_msg env.sigOk p rl.public_keys cpk = false) →
      process_event env rl (ev1 ++ chunk :: ev2) =
        process_event env rl (ev1 ++ ev2)) := by
  refine ⟨?_, ?_, ?_⟩
  · intro sigOk pks cpk sig body
    exact ⟨rfl, rfl, rfl, rfl⟩
  · intro sigOk pks cpk sig body sid
    refine ⟨?_, ?_, ?_, ?_, ?_⟩ <;>
      cases h : pks.signers.lookup sid <;> simp [verify_msg, h]
  · intro env rl ev1 ev2 chunk cid cpk hcalc hbad
    have hdrop : authenticated_packets env rl.public_keys cpk
        (ev1 ++ chunk :: ev2) =
        authenticated_packets env rl.public_keys cpk (ev1 ++ ev2) := by
      have hnone : (match env.decode chunk with
          | some message =>
            if verify_msg env.sigOk message rl.public_keys cpk then
              some message
            else
              none
          | none => none) = (none : Option Packet) := by
        cases hd : env.decode chunk with
        | none => rfl
        | some p => simp [hbad p hd]
      simp only [authenticated_packets, List.filterMap_append,
        List.filterMap_cons, hnone]
    simp only [process_event, hcalc, hdrop]

/-- C1 witness: in a concrete batch, blob 1 (a coordinator-signed
DkgBegin) and blob 2 (a well-signed NonceResponse from id 1) pass while
blob 3 (a badly signed NonceResponse) is dropped without affecting the
other two. -/
theorem verify_msg_dispatch_and_drop_witness :
    calculate_coordinator rlW.public_keys = some (0, 10) ∧
    (∀ p, eenvW.decode 3 = some p →
      verify_msg eenvW.sigOk p rlW.public_keys 10 = false) ∧
    process_event eenvW rlW ([1] ++ 3 :: [2]) =
      process_event eenvW rlW ([1] ++ [2]) :=
  ⟨by decide, by decide,
   verify_msg_dispatch_and_drop.2.2 eenvW rlW [1] [2] 3 0 10 (by decide)
     (by decide)⟩

/-- C6: `process_event` feeds the authenticated list to the participant
engine, and additionally to the coordinator engine exactly when this
node's signer id equals the elected coordinator id (0); the outbound
messages are participant output followed by coordinator output, and the
operation results are exactly the coordinator engine's, empty when this
node is not the coordinator. -/
theorem process_event_fanout :
    ∀ (env : EventEnv) (rl : RunLoop) (ev : List Blob) (ck : PubKey)
      (po co : List Packet) (rs : List OpResult),
      rl.public_keys.signers.lookup 0 = some ck →
      env.signerOut (authenticated_packets env rl.public_keys ck ev) =
        some po →
      env.coordOut (authenticated_packets env rl.public_keys ck ev) =
        some (co, rs) →
      (rl.signer_id = 0 → process_event env rl ev = some (po ++ co, rs)) ∧
      (rl.signer_id ≠ 0 → process_event env rl ev = some (po, [])) := by
  intro env rl ev ck po co rs hk hs hc
  constructor
  · intro hid
    simp [process_event, calculate_coordinator, hk, hs, hc, hid]
  · intro hid
    simp [process_event, calculate_coordinator, hk, hs, hc, hid]

/-- C6 witness: on the concrete batch [1, 2] node 0 (the coordinator)
returns the echoed packets plus the coordinator engine's result, while
node 1 returns only the participant output and no results. -/
theorem process_event_fanout_witness :
    rlW.public_keys.signers.lookup 0 = some 10 ∧
    process_event eenvW rlW [1, 2] =
      some (authenticated_packets eenvW rlW.public_keys 10 [1, 2] ++ [],
            [(authenticated_packets eenvW rlW.public_keys 10 [1, 2]).length]) :=
  ⟨by decide,
   (process_event_fanout eenvW rlW [1, 2] 10
       (authenticated_packets eenvW rlW.public_keys 10 [1, 2]) []
       [(authenticated_packets eenvW rlW.public_keys 10 [1, 2]).length]
       (by decide) rfl rfl).1 rfl⟩

/-- C8: a failure of the participant engine is absorbed by
`process_event`: it contributes an empty outbound list, the tick
continues, and the coordinator-engine step and the return still
happen. -/
theorem participant_failure_absorbed :
    ∀ (env : EventEnv) (rl : RunLoop) (ev : List Blob) (ck : PubKey)
      (co : List Packet) (rs : List OpResult),
      rl.public_keys.signers.lookup 0 = some ck →
      env.signerOut (authenticated_packets env rl.public_keys ck ev) = none →
      env.coordOut (authenticated_packets env rl.public_keys ck ev) =
        some (co, rs) →
      (rl.signer_id = 0 → process_event env rl ev = some (co, rs)) ∧
      (rl.signer_id ≠ 0 → process_event env rl ev = some ([], [])) := by
  intro env rl ev ck co rs hk hs hc
  constructor
  · intro hid
    simp [process_event, calculate_coordinator, hk, hs, hc, hid]
  · intro hid
    simp [process_event, calculate_coordinator, hk, hs, hc, hid]

/-- C8 witness: with a participant engine that always fails, node 0
still gets the coordinator engine's answer for the batch [1, 2]. -/
theorem participant_failure_absorbed_witness :
    ({ eenvW with signerOut := fun _ => none } : EventEnv).signerOut
        (authenticated_packets { eenvW with signerOut := fun _ => none }
          rlW.public_keys 10 [1, 2]) = none ∧
    process_event { eenvW with signerOut := fun _ => none } rlW [1, 2] =
      some ([],
            [(authenticated_packets { eenvW with signerOut := fun _ => none }
                rlW.public_keys 10 [1, 2]).length]) :=
  ⟨rfl,
   (participant_failure_absorbed { eenvW with signerOut := fun _ => none }
       rlW [1, 2] 10 []
       [(authenticated_packets { eenvW with signerOut := fun _ => none }
           rlW.public_keys 10 [1, 2]).length]
       (by decide) rfl rfl).1 rfl⟩

/-- C4: `should_run_dkg` is false off the idle state; idle with no group
key, it is true iff this node is the elected coordinator (id 0) and a
Dkg command is not already at the queue front; when true, the driver's
DKG-requirement step appends exactly one Dkg command at the tail, and
with a Dkg command already at the front the check never enqueues a
second one. -/
theorem should_run_dkg_no_group_key :
    ∀ (client : ClientEnv) (rl : RunLoop) (ck : PubKey),
      (rl.state ≠ State.idle → should_run_dkg client rl = some (false, [])) ∧
      (rl.state = State.idle → rl.aggregate_public_key = none →
        rl.public_keys.signers.lookup 0 = some ck →
        (should_run_dkg client rl = some (true, []) ↔
          (rl.signer_id = 0 ∧
            rl.commands.head? ≠ some RunLoopCommand.dkg))) ∧
      (should_run_dkg client rl = some (true, []) →
        enqueue_dkg_step client rl =
          some ({ rl with commands := rl.commands ++ [RunLoopCommand.dkg] },
                [])) ∧
      (rl.commands.head? = some RunLoopCommand.dkg →
        rl.public_keys.signers.lookup 0 = some ck →
        ∃ tr, should_run_dkg client rl = some (false, tr) ∧
          enqueue_dkg_step client rl = some (rl, tr)) := by
  intro client rl ck
  refine ⟨?_, ?_, ?_, ?_⟩
  · intro hs
    simp [should_run_dkg, hs]
  · intro hs hagg hk
    simp [should_run_dkg, hs, hagg, calculate_coordinator, hk]
    exact fun _ => eq_comm
  · intro h
    simp [enqueue_dkg_step, h]
  · intro hhead hk
    cases hs : rl.state with
    | idle =>
      cases hagg : rl.aggregate_public_key with
      | some key =>
        exact ⟨Effect.getChainKey :: vote_liaison_trace client key,
          by simp [should_run_dkg, hs, hagg, calculate_coordinator, hk],
          by simp [enqueue_dkg_step, should_run_dkg, hs, hagg,
            calculate_coordinator, hk]⟩
      | none =>
        exact ⟨[],
          by simp [should_run_dkg, hs, hagg, calculate_coordinator, hk, hhead],
          by simp [enqueue_dkg_step, should_run_dkg, hs, hagg,
            calculate_coordinator, hk, hhead]⟩
    | dkg =>
      exact ⟨[], by simp [should_run_dkg, hs],
        by simp [enqueue_dkg_step, should_run_dkg, hs]⟩
    | sign =>
      exact ⟨[], by simp [should_run_dkg, hs],
        by simp [enqueue_dkg_step, should_run_dkg, hs]⟩

/-- C4 witness: for the concrete idle coordinator node with no group key
the check answers true and the step appends one Dkg command; with a Dkg
command already at the front it answers false and appends nothing. -/
theorem should_run_dkg_no_group_key_witness :
    (rlW.state = State.idle ∧ rlW.aggregate_public_key = none ∧
      rlW.public_keys.signers.lookup 0 = some 10 ∧
      rlW.signer_id = 0 ∧ rlW.commands.head? ≠ some RunLoopCommand.dkg) ∧
    should_run_dkg clientW rlW = some (true, []) ∧
    (∃ tr, should_run_dkg clientW
        { rlW with commands := [RunLoopCommand.dkg] } = some (false, tr) ∧
      enqueue_dkg_step clientW { rlW with commands := [RunLoopCommand.dkg] } =
        some ({ rlW with commands := [RunLoopCommand.dkg] }, tr)) :=
  ⟨⟨rfl, rfl, by decide, rfl, by decide⟩,
   ((should_run_dkg_no_group_key clientW rlW 10).2.1 rfl rfl
       (by decide)).mpr ⟨rfl, by decide⟩,
   (should_run_dkg_no_group_key clientW
       { rlW with commands := [RunLoopCommand.dkg] } 10).2.2.2 rfl (by decide)⟩

/-- C5 counterexample: node 1 is not the elected coordinator (id 0),
yet with an aggregate key present and a failing chain query it performs
the vote-liaison calls (reads the vote record and casts a vote), so the
claim that a non-coordinator performs no vote-liaison calls is false. -/
theorem vote_liaison_counterexample :
    rlNonCoord.signer_id ≠ 0 ∧
    calculate_coordinator rlNonCoord.public_keys = some (0, 10) ∧
    should_run_dkg clientErrW rlNonCoord =
      some (false,
        [Effect.getChainKey, Effect.getVoteCall, Effect.castVote 42]) :=
  ⟨by decide, rfl, rfl⟩

/-- C5 amended: with a group public key present (and idle, id 0
registered), `should_run_dkg` always returns false; it performs the
vote-liaison calls exactly when the chain query for the aggregate key
does not return a value (the source's `.ok().is_none()` gate),
regardless of whether this node is the elected coordinator, and it
casts a vote exactly when additionally no vote is recorded yet. -/
theorem vote_liaison_gate :
    ∀ (client : ClientEnv) (rl : RunLoop) (key ck : PubKey),
      rl.state = State.idle →
      rl.public_keys.signers.lookup 0 = some ck →
      rl.aggregate_public_key = some key →
      should_run_dkg client rl =
        some (false, Effect.getChainKey :: vote_liaison_trace client key) ∧
      (Effect.getVoteCall ∈ vote_liaison_trace client key ↔
        (Except.toOption client.getChainKey).isNone = true) ∧
      (Effect.castVote key ∈ vote_liaison_trace client key ↔
        ((Except.toOption client.getChainKey).isNone = true ∧
          client.getVote = .ok none)) := by
  intro client rl key ck hs hk hagg
  refine ⟨by simp [should_run_dkg, hs, hagg, calculate_coordinator, hk],
    ?_, ?_⟩
  · cases hchain : client.getChainKey with
    | ok v =>
      simp [vote_liaison_trace, hchain, Except.toOption]
    | error e =>
      cases hv : client.getVote with
      | ok w =>
        cases w <;> simp [vote_liaison_trace, hchain, hv, Except.toOption]
      | error f =>
        simp [vote_liaison_trace, hchain, hv, Except.toOption]
  · cases hchain : client.getChainKey with
    | ok v =>
      simp [vote_liaison_trace, hchain, Except.toOption]
    | error e =>
      cases hv : client.getVote with
      | ok w =>
        cases w <;> simp [vote_liaison_trace, hchain, hv, Except.toOption]
      | error f =>
        simp [vote_liaison_trace, hchain, hv, Except.toOption]

/-- C5 amended witness: node 1 (not the coordinator), aggregate key 42,
failing chain query: `should_run_dkg` answers false and the liaison
trace contains the vote read and the vote cast. -/
theorem vote_liaison_gate_witness :
    (rlNonCoord.state = State.idle ∧
      rlNonCoord.public_keys.signers.lookup 0 = some 10 ∧
      rlNonCoord.aggregate_public_key = some 42) ∧
    should_run_dkg clientErrW rlNonCoord =
      some (false,
        Effect.getChainKey :: vote_liaison_trace clientErrW 42) ∧
    (Effect.castVote 42 ∈ vote_liaison_trace clientErrW 42 ↔
      ((Except.toOption clientErrW.getChainKey).isNone = true ∧
        clientErrW.getVote = .ok none)) :=
  ⟨⟨rfl, by decide, rfl⟩,
   (vote_liaison_gate clientErrW rlNonCoord 42 10 rfl (by decide) rfl).1,
   (vote_liaison_gate clientErrW rlNonCoord 42 10 rfl (by decide) rfl).2.2⟩

/-- C9 counterexample: construction panics on a configuration whose
signer id is missing from `signer_key_ids` even though the startup
group-key fetch succeeds, so the claim that construction panics only on
a failed fetch is false. -/
theorem from_config_counterexample :
    clientW.getChainKey = .ok none ∧ from_config clientW cfgBad = none :=
  ⟨rfl, rfl⟩

/-- C9 amended: construction panics if the startup group-key fetch
fails; for a well-formed configuration (signer id present in
`signer_key_ids`, counts fitting in u32) it panics exactly when the
fetch fails, and on success the fetched value (present or absent) is
installed as the coordinator engine's aggregate public key with state
Idle and an empty command queue. -/
theorem from_config_characterization :
    ∀ (client : ClientEnv) (config : Config),
      config.signer_ids_public_keys.key_ids.length * 7 / 10 < 2 ^ 32 →
      config.signer_ids_public_keys.signers.length < 2 ^ 32 →
      config.signer_ids_public_keys.key_ids.length < 2 ^ 32 →
      (∃ l, config.signer_key_ids.lookup config.signer_id = some l) →
      ((from_config client config = none ↔
          client.getChainKey = .error ()) ∧
        (∀ key, client.getChainKey = .ok key →
          from_config client config =
            some { event_timeout := config.event_timeout
                   aggregate_public_key := key
                   signer_id := config.signer_id
                   public_keys := config.signer_ids_public_keys
                   commands := []
                   state := State.idle
                   start_attempts := 0 })) := by
  intro client config h1 h2 h3 hl
  obtain ⟨l, hl⟩ := hl
  norm_num at h1 h2 h3
  constructor
  · cases hc : client.getChainKey with
    | ok key => simp [from_config, h1, h2, h3, hl, hc]
    | error e => cases e; simp [from_config, h1, h2, h3, hl, hc]
  · intro key hc
    simp [from_config, h1, h2, h3, hl, hc]

/-- C9 amended witness: the well-formed configuration with a successful
fetch of "no key yet" yields an idle run loop with no aggregate key and
an empty queue. -/
theorem from_config_characterization_witness :
    (cfgW.signer_key_ids.lookup cfgW.signer_id = some [1, 2] ∧
      clientW.getChainKey = .ok none) ∧
    from_config clientW cfgW = some rlCfg :=
  ⟨⟨by decide, rfl⟩,
   (from_config_characterization clientW cfgW (by decide) (by decide)
       (by decide) ⟨[1, 2], by decide⟩).2 none rfl⟩

/-- `execute_command` phrased through the unified start-call oracle. -/
theorem execute_command_eq (env : CoordEnv) (rl : RunLoop)
    (command : RunLoopCommand) :
    execute_command env rl command =
      match start_result env rl.start_attempts command with
      | .ok msg =>
        (true,
         { rl with start_attempts := rl.start_attempts + 1,
                   state := command_state command },
         [call_effect command, Effect.send msg])
      | .error _ =>
        (false,
         { rl with start_attempts := rl.start_attempts + 1 },
         [call_effect command, Effect.reset]) := by
  cases command <;> rfl

/-- Counting occurrences inside a joined replicated block. -/
theorem count_join_replicate (k : Nat) (l : List Effect) (a : Effect) :
    ((List.replicate k l).flatten).count a = k * l.count a := by
  induction k with
  | zero => simp
  | succ n ih =>
    simp [List.replicate_succ, ih, Nat.succ_mul, Nat.add_comm]

/-- The retry loop of `process_next_command`, characterized when the
engine's start call fails for the first k attempts and succeeds on the
(k+1)-st: it runs exactly k+1 attempts, interleaving a reset after each
failure, broadcasts the start message once, and enters the command's
round state. -/
theorem retryLoop_spec (env : CoordEnv) (command : RunLoopCommand)
    (p : Packet) :
    ∀ (k : Nat) (rl : RunLoop) (fuel : Nat), k < fuel →
      (∀ i, i < k →
        start_result env (rl.start_attempts + i) command = .error ()) →
      start_result env (rl.start_attempts + k) command = .ok p →
      retryLoop env command fuel rl =
        some ({ rl with start_attempts := rl.start_attempts + k + 1,
                        state := command_state command },
              (List.replicate k [call_effect command, Effect.reset]).flatten ++
                [call_effect command, Effect.send p]) := by
  intro k
  induction k with
  | zero =>
    intro rl fuel hf hfail hok
    cases fuel with
    | zero => exact absurd hf (Nat.lt_irrefl 0)
    | succ f =>
      rw [Nat.add_zero] at hok
      simp [retryLoop, execute_command_eq, hok]
  | succ n ih =>
    intro rl fuel hf hfail hok
    cases fuel with
    | zero => exact absurd hf (Nat.not_lt_zero _)
    | succ f =>
      have h0 : start_result env rl.start_attempts command = .error () := by
        have := hfail 0 (Nat.succ_pos n)
        rwa [Nat.add_zero] at this
      have ihres := ih { rl with start_attempts := rl.start_attempts + 1 } f
        (Nat.lt_of_succ_lt_succ hf)
        (fun i hi => by
          have := hfail (i + 1) (Nat.succ_lt_succ hi)
          simpa [Nat.add_assoc, Nat.add_comm 1 i] using this)
        (by
          have := hok
          simpa [Nat.add_assoc, Nat.add_comm 1 n] using this)
      simp only [retryLoop, execute_command_eq, h0, ihres]
      simp [List.replicate_succ, RunLoop.mk.injEq]
      omega

/-- C3: with the front command popped for execution, a start that fails
k times and then succeeds makes `process_next_command` call
`execute_command` exactly k+1 times for that command; the command is
neither re-enqueued nor dropped (the queue ends as the original tail),
it is started successfully exactly once, and removal happens only
together with at least one start attempt. -/
theorem command_retry_in_place :
    ∀ (env : CoordEnv) (rl : RunLoop) (command : RunLoopCommand)
      (rest : List RunLoopCommand) (k fuel : Nat) (p : Packet),
      rl.state = State.idle →
      rl.commands = command :: rest →
      k < fuel →
      (∀ i, i < k →
        start_result env (rl.start_attempts + i) command = .error ()) →
      start_result env (rl.start_attempts + k) command = .ok p →
      ∃ rl1 tr, process_next_command env fuel rl = some (rl1, tr) ∧
        tr.count (call_effect command) = k + 1 ∧
        tr.count (Effect.send p) = 1 ∧
        1 ≤ tr.count (call_effect command) ∧
        rl1.commands = rest ∧
        rl1.state = command_state command := by
  intro env rl command rest k fuel p hs hq hf hfail hok
  have hrun := retryLoop_spec env command p k { rl with commands := rest }
    fuel hf hfail hok
  have hcall : ((List.replicate k
      [call_effect command, Effect.reset]).flatten ++
      [call_effect command, Effect.send p]).count (call_effect command) =
      k + 1 := by
    cases command <;>
      simp [List.count_append, count_join_replicate, List.count_cons,
        call_effect]
  have hsend : ((List.replicate k
      [call_effect command, Effect.reset]).flatten ++
      [call_effect command, Effect.send p]).count (Effect.send p) = 1 := by
    cases command <;>
      simp [List.count_append, count_join_replicate, List.count_cons,
        call_effect]
  refine ⟨{ rl with
            commands := rest,
            start_attempts := rl.start_attempts + k + 1,
            state := command_state command },
    (List.replicate k [call_effect command, Effect.reset]).flatten ++
      [call_effect command, Effect.send p], ?_, hcall, hsend, ?_, rfl, rfl⟩
  · simp only [process_next_command, hs, hq]
    simpa [hs] using hrun
  · rw [hcall]
    omega

/-- C3 witness: the concrete engine fails the DKG start twice before
succeeding; the Dkg command at the queue front is attempted exactly
three times, started once, and ends dequeued with the queue empty. -/
theorem command_retry_in_place_witness :
    (rlDkgQueued.state = State.idle ∧
      rlDkgQueued.commands = RunLoopCommand.dkg :: [] ∧
      (∀ i, i < 2 →
        start_result denvW (rlDkgQueued.start_attempts + i)
          RunLoopCommand.dkg = .error ()) ∧
      start_result denvW (rlDkgQueued.start_attempts + 2)
        RunLoopCommand.dkg = .ok ⟨Message.dkgBegin 0, 0⟩) ∧
    (∃ rl1 tr, process_next_command denvW 4 rlDkgQueued = some (rl1, tr) ∧
      tr.count (call_effect RunLoopCommand.dkg) = 2 + 1 ∧
      tr.count (Effect.send ⟨Message.dkgBegin 0, 0⟩) = 1 ∧
      1 ≤ tr.count (call_effect RunLoopCommand.dkg) ∧
      rl1.commands = [] ∧
      rl1.state = command_state RunLoopCommand.dkg) :=
  ⟨⟨rfl, rfl, fun i hi => by interval_cases i <;> rfl, rfl⟩,
   command_retry_in_place denvW rlDkgQueued RunLoopCommand.dkg [] 2 4
     ⟨Message.dkgBegin 0, 0⟩ rfl rfl (by omega)
     (fun i hi => by interval_cases i <;> rfl) rfl⟩

/-- Any successful exit of the retry loop ends in the command's round
state with the queue unchanged by the loop itself. -/
theorem retryLoop_state_commands (env : CoordEnv) (command : RunLoopCommand) :
    ∀ (fuel : Nat) (rl rl1 : RunLoop) (tr : List Effect),
      retryLoop env command fuel rl = some (rl1, tr) →
      rl1.state = command_state command ∧ rl1.commands = rl.commands := by
  intro fuel
  induction fuel with
  | zero =>
    intro rl rl1 tr h
    simp [retryLoop] at h
  | succ f ih =>
    intro rl rl1 tr h
    rw [retryLoop, execute_command_eq] at h
    cases hsr : start_result env rl.start_attempts command with
    | ok msg =>
      rw [hsr] at h
      simp only [Option.some.injEq, Prod.mk.injEq] at h
      obtain ⟨h1, h2⟩ := h
      subst h1
      exact ⟨rfl, rfl⟩
    | error e =>
      rw [hsr] at h
      simp only at h
      cases hr : retryLoop env command f
          { rl with start_attempts := rl.start_attempts + 1 } with
      | none => rw [hr] at h; simp at h
      | some pr =>
        obtain ⟨rl2, tr2⟩ := pr
        rw [hr] at h
        simp only [Option.some.injEq, Prod.mk.injEq] at h
        obtain ⟨h1, h2⟩ := h
        subst h1
        exact ⟨(ih _ _ _ hr).1, (ih _ _ _ hr).2⟩

/-- C2: the round state machine — a non-idle state blocks
`process_next_command` entirely (no dequeue, no effects); idle moves to
RunningDkg/RunningSign only through a successful `execute_command` start
of the front command; a pass whose event yields no operation result (or
with no event) leaves a non-idle state and the queue untouched, so the
state returns to idle only when an event yields at least one result;
and the state is a single value, so at most one round is in flight. -/
theorem round_state_machine :
    (∀ (env : CoordEnv) (fuel : Nat) (rl : RunLoop),
      rl.state ≠ State.idle →
      process_next_command env fuel rl = some (rl, [])) ∧
    (∀ (env : CoordEnv) (rl : RunLoop) (command : RunLoopCommand),
      ((execute_command env rl command).1 = true →
        (execute_command env rl command).2.1.state = command_state command) ∧
      ((execute_command env rl command).1 = false →
        (execute_command env rl command).2.1.state = rl.state)) ∧
    (∀ (env : CoordEnv) (fuel : Nat) (rl rl1 : RunLoop) (tr : List Effect),
      rl.state = State.idle →
      process_next_command env fuel rl = some (rl1, tr) →
      rl1 = rl ∨
      ∃ command rest, rl.commands = command :: rest ∧
        rl1.state = command_state command ∧ rl1.commands = rest) ∧
    (∀ (eenv : EventEnv) (client : ClientEnv) (denv : CoordEnv) (fuel : Nat)
       (rl rl1 : RunLoop) (tr : List Effect) (ev : List Blob)
       (out : List Packet),
      rl.state ≠ State.idle →
      process_event eenv rl ev = some (out, []) →
      run_one_pass eenv client denv fuel rl (some ev) none = some (rl1, tr) →
      rl1.state = rl.state ∧ rl1.commands = rl.commands) ∧
    (∀ (eenv : EventEnv) (client : ClientEnv) (denv : CoordEnv) (fuel : Nat)
       (rl rl1 : RunLoop) (tr : List Effect),
      rl.state ≠ State.idle →
      run_one_pass eenv client denv fuel rl none none = some (rl1, tr) →
      rl1.state = rl.state ∧ rl1.commands = rl.commands) ∧
    (∀ s : State, ¬(s = State.dkg ∧ s = State.sign)) := by
  have hpnc : ∀ (env : CoordEnv) (fuel : Nat) (rl : RunLoop),
      rl.state ≠ State.idle →
      process_next_command env fuel rl = some (rl, []) := by
    intro env fuel rl h
    cases hs : rl.state with
    | idle => exact absurd hs h
    | dkg => simp [process_next_command, hs]
    | sign => simp [process_next_command, hs]
  have hsrd : ∀ (client : ClientEnv) (rl : RunLoop),
      rl.state ≠ State.idle →
      enqueue_dkg_step client rl = some (rl, []) := by
    intro client rl h
    simp [enqueue_dkg_step, should_run_dkg, h]
  refine ⟨hpnc, ?_, ?_, ?_, ?_, ?_⟩
  · intro env rl command
    rw [execute_command_eq]
    cases hsr : start_result env rl.start_attempts command <;> simp
  · intro env fuel rl rl1 tr hs hp
    rw [process_next_command, hs] at hp
    cases hq : rl.commands with
    | nil =>
      rw [hq] at hp
      simp only [Option.some.injEq, Prod.mk.injEq] at hp
      exact Or.inl hp.1.symm
    | cons command rest =>
      rw [hq] at hp
      simp only at hp
      have := retryLoop_state_commands env command fuel _ _ _ hp
      exact Or.inr ⟨command, rest, rfl, this.1, this.2⟩
  · intro eenv client denv fuel rl rl1 tr ev out hs hpe hrun
    rw [run_one_pass] at hrun
    simp only [hpe, List.length_nil, gt_iff_lt, Nat.lt_irrefl, if_false,
      hsrd client rl hs, hpnc denv fuel rl hs, Option.some.injEq,
      Prod.mk.injEq] at hrun
    rw [← hrun.1]
    exact ⟨rfl, rfl⟩
  · intro eenv client denv fuel rl rl1 tr hs hrun
    rw [run_one_pass] at hrun
    simp only [hsrd client rl hs, hpnc denv fuel rl hs, Option.some.injEq,
      Prod.mk.injEq] at hrun
    rw [← hrun.1]
    exact ⟨rfl, rfl⟩
  · intro s hcontra
    rw [hcontra.1] at hcontra
    exact State.noConfusion hcontra.2

/-- C2 witness: a run loop in the Dkg state dequeues nothing even with a
command queued, and a pass with no event leaves the state and the queue
unchanged. -/
theorem round_state_machine_witness :
    rlBusy.state ≠ State.idle ∧
    process_next_command denvW 3 rlBusy = some (rlBusy, []) ∧
    (∀ rl1 tr, run_one_pass eenvW clientW denvW 3 rlBusy none none =
        some (rl1, tr) →
      rl1.state = rlBusy.state ∧ rl1.commands = rlBusy.commands) :=
  ⟨by decide,
   round_state_machine.1 denvW 3 rlBusy (by decide),
   fun rl1 tr h => round_state_machine.2.2.2.2.1 eenvW clientW denvW 3
     rlBusy rl1 tr (by decide) h⟩

end StacksSigner
